import Mathlib

/-
  Formal model of the relay core of the vercel/mcp-handler repository.

  The definitions below are a shallow embedding of:
  - src/src/handler/mcp-api-handler.ts  (endpoint calculation, Redis client
    singletons, the stateless-server lazy init, the SSE connection endpoint,
    the SSE message endpoint relay, createFakeIncomingMessage); and
  - src/unnamed/part_007                (a variant of the same handler whose
    message endpoint and SSE branch carry explicit idempotent cleanup).

  Stateful handler code is embedded as explicit state records with a step
  function over the asynchronous events that can hit a pending request
  (reply delivery, timer firing, response-stream close); JS truthiness of
  the values involved (empty strings, null/undefined) is modelled
  explicitly where the source branches on it.
-/

namespace McpHandler

/-! ## Endpoint calculation (mcp-api-handler.ts lines 114-156) -/

structure Endpoints where
  streamableHttpEndpoint : String
  sseEndpoint : String
  sseMessageEndpoint : String
deriving DecidableEq, Repr

/-- Models the relevant fields of the TS `Config` object. `none` models an
absent (undefined) field; for `basePath` it also models `null`, since the
source tests `basePath != null`, which rejects both. -/
structure EndpointConfig where
  basePath : Option String := none
  streamableHttpEndpoint : Option String := none
  sseEndpoint : Option String := none
  sseMessageEndpoint : Option String := none

/-- Models `basePath.replace(/\/$/, "")`: the regex removes one trailing
slash when present (JS `$` anchors at the very end of the string). -/
def stripTrailingSlash (s : String) : String :=
  if s.toList.getLast? = some '/' then String.mk s.toList.dropLast else s

/-- Models `deriveEndpointsFromBasePath` (lines 114-127). -/
def deriveEndpointsFromBasePath (basePath : String) : Endpoints :=
  let normalizedBasePath := stripTrailingSlash basePath
  { streamableHttpEndpoint := normalizedBasePath ++ "/mcp"
    sseEndpoint := normalizedBasePath ++ "/sse"
    sseMessageEndpoint := normalizedBasePath ++ "/message" }

/-- Models `calculateEndpoints` (lines 133-156): destructuring defaults
"/mcp", "/sse", "/message" apply to absent fields, and `basePath != null`
selects between derivation and the explicit endpoints. -/
def calculateEndpoints (c : EndpointConfig) : Endpoints :=
  match c.basePath with
  | some bp => deriveEndpointsFromBasePath bp
  | none =>
    { streamableHttpEndpoint := c.streamableHttpEndpoint.getD "/mcp"
      sseEndpoint := c.sseEndpoint.getD "/sse"
      sseMessageEndpoint := c.sseMessageEndpoint.getD "/message" }

/-! ## Redis client singletons (mcp-api-handler.ts lines 158-192) and the
stateless-server lazy init (lines 242-289).

Client and server objects are modelled by numeric identities drawn from a
counter, so that "creates a new client" is observable as a counter bump and
"returns the same pair" as identity of the numbers. -/

structure ProcState where
  redis : Option Nat
  redisPublisher : Option Nat
  nextClientId : Nat
  connected : List Nat
deriving DecidableEq, Repr

/-- Models `initializeRedis` (lines 161-192): if both module-level clients
exist they are returned as-is; otherwise a falsy (absent or empty) url
throws, else two fresh clients are created, both are connected, and the
pair is stored. -/
def initializeRedis (st : ProcState) (redisUrl : Option String) :
    Except String (ProcState × Nat × Nat) :=
  match st.redis, st.redisPublisher with
  | some r, some p => Except.ok (st, r, p)
  | _, _ =>
    if redisUrl.getD "" = "" then Except.error "redisUrl is required"
    else
      let r := st.nextClientId
      let p := st.nextClientId + 1
      Except.ok
        ({ redis := some r
           redisPublisher := some p
           nextClientId := st.nextClientId + 2
           connected := st.connected ++ [r, p] }, r, p)

/-- Models the `if (!statelessServer) { statelessServer = new McpServer(...);
await initializeServer(statelessServer); await statelessServer.connect(...) }`
guard (lines 285-289): returns the server used by this invocation, the
stored server afterwards, and the creation counter afterwards. -/
def ensureStatelessServer (statelessServer : Option Nat) (nextId : Nat) :
    Nat × Option Nat × Nat :=
  match statelessServer with
  | some s => (s, some s, nextId)
  | none => (nextId, some nextId, nextId + 1)

/-! ## JSON values and JSON.stringify (used by createFakeIncomingMessage for
non-string, non-Buffer bodies). Numbers are modelled as integers; no claim
depends on numeric serialization. -/

inductive Json where
  | null
  | bool (b : Bool)
  | num (n : Int)
  | str (s : String)
  | arr (elems : List Json)
  | obj (fields : List (String × Json))

/-- Models JSON string escaping for the two characters that must always be
escaped; control-character escapes are elided (no theorem depends on them). -/
def escapeChar (c : Char) : String :=
  if c = '\\' then "\\\\"
  else if c = '"' then "\\\""
  else String.singleton c

def escapeString (s : String) : String :=
  String.join (s.toList.map escapeChar)

mutual

/-- Models `JSON.stringify` on parsed JSON values. -/
def Json.stringify : Json → String
  | Json.null => "null"
  | Json.bool true => "true"
  | Json.bool false => "false"
  | Json.num n => toString n
  | Json.str s => "\"" ++ escapeString s ++ "\""
  | Json.arr elems => "[" ++ Json.stringifyElems elems ++ "]"
  | Json.obj fields => "\x7b" ++ Json.stringifyFields fields ++ "\x7d"

def Json.stringifyElems : List Json → String
  | [] => ""
  | [x] => Json.stringify x
  | x :: y :: rest => Json.stringify x ++ "," ++ Json.stringifyElems (y :: rest)

def Json.stringifyFields : List (String × Json) → String
  | [] => ""
  | [(k, v)] => "\"" ++ escapeString k ++ "\":" ++ Json.stringify v
  | (k, v) :: f :: rest =>
    "\"" ++ escapeString k ++ "\":" ++ Json.stringify v ++ "," ++
      Json.stringifyFields (f :: rest)

end

/-! ## Synthetic protocol object adapter
(`createFakeIncomingMessage`, mcp-api-handler.ts lines 632-697, and the
response capturer built inside `handleMessage`, lines 441-450). -/

/-- A chunk pushed onto the fake readable stream: either a JS string or a
Buffer (whose byte contents are modelled as a list of byte values). -/
inductive StreamChunk where
  | str (s : String)
  | buf (bytes : List Nat)
deriving DecidableEq, Repr

/-- Models the non-null inhabitants of the imported `BodyType` alias
(declared in the server-response-adapter module, whose text is not in the
repository snapshot; per the import sites and spec section 4.5 a body is a
string, binary data, or a JSON object to be serialized). -/
inductive Body where
  | bstr (s : String)
  | bbuf (bytes : List Nat)
  | bobj (fields : List (String × Json))

/-- JS truthiness of a body value (`if (body)`): the empty string is falsy;
Buffers and objects are always truthy. -/
def Body.truthy : Body → Bool
  | Body.bstr s => s != ""
  | Body.bbuf _ => true
  | Body.bobj _ => true

/-- The single chunk the source pushes for a truthy body: strings and
Buffers unmodified, anything else via `JSON.stringify`. -/
def Body.chunk : Body → StreamChunk
  | Body.bstr s => StreamChunk.str s
  | Body.bbuf bytes => StreamChunk.buf bytes
  | Body.bobj fields => StreamChunk.str (Json.stringify (Json.obj fields))

/-- Models the SDK `AuthInfo` object attached to synthesized requests. -/
structure AuthInfo where
  token : String
  clientId : String
  scopes : List String
deriving DecidableEq, Repr

/-- Models `FakeIncomingMessageOptions` (lines 632-639); `none` is an
omitted field. -/
structure FakeIncomingMessageOptions where
  method : Option String := none
  url : Option String := none
  headers : Option (List (String × String)) := none
  body : Option Body := none
  auth : Option AuthInfo := none

/-- The observable result of `createFakeIncomingMessage`: the exposed
request fields, the chunks pushed to the backing readable stream, whether
the stream was ended, and the attached auth context. -/
structure FakeIncomingMessage where
  method : String
  url : String
  headers : List (String × String)
  chunks : List StreamChunk
  ended : Bool
  auth : Option AuthInfo

/-- Models `createFakeIncomingMessage` (lines 642-697). Defaults: method
"GET", url "/", empty headers, null body. A truthy body is pushed as one
chunk and the stream is always ended (`readable.push(null)` happens in both
branches). The attached auth is `options.auth || getAuthContext()`; the
ambient auth context is passed in explicitly here. -/
def createFakeIncomingMessage (options : FakeIncomingMessageOptions)
    (ambientAuth : Option AuthInfo) : FakeIncomingMessage :=
  let method := options.method.getD "GET"
  let url := options.url.getD "/"
  let headers := options.headers.getD []
  let chunks :=
    match options.body with
    | some b => if b.truthy then [b.chunk] else []
    | none => []
  let auth :=
    match options.auth with
    | some a => some a
    | none => ambientAuth
  { method := method, url := url, headers := headers,
    chunks := chunks, ended := true, auth := auth }

/-- The in-memory response capturer built in `handleMessage` (lines
441-450): `let status = 100; let body = "";` with overridden `writeHead`
and `end`. -/
structure CapturedResponse where
  status : Nat
  body : String
deriving DecidableEq, Repr

def captureInit : CapturedResponse := { status := 100, body := "" }

/-- Models the overridden `syntheticRes.writeHead`. -/
def captureWriteHead (r : CapturedResponse) (statusCode : Nat) : CapturedResponse :=
  { r with status := statusCode }

/-- Models the overridden `syntheticRes.end`. -/
def captureEnd (r : CapturedResponse) (b : String) : CapturedResponse :=
  { r with body := b }

/-! ## Broker channel names (mcp-api-handler.ts lines 477-478, 510, 589-615). -/

def requestsChannel (sessionId : String) : String :=
  "requests:" ++ sessionId

def responsesChannel (sessionId requestId : String) : String :=
  "responses:" ++ sessionId ++ ":" ++ requestId

/-! ## The message-endpoint relay of mcp-api-handler.ts (lines 539-627).

The handler validates the sessionId, subscribes to the per-request reply
channel, publishes the serialized request, arms a timeout, and registers a
close handler. After that setup, three kinds of asynchronous events can
reach the pending request: a message published on the reply channel (only
delivered while the subscription is active), the timeout firing, and the
response stream closing (caller disconnect or response completion). -/

/-- A reply payload as the mcp-api-handler.ts subscription callback treats
it, abstracted to the two outcomes that the delivery and one-shot
properties proved over this machine depend on: a parsed status/body pair
forwarded to sendResponse, or a payload on which `JSON.parse` throws
(answered with the generic 500). Field-level payload handling — including
valid JSON that lacks the status and body fields — is modelled separately
by `RawReply` and `jsGet` in the part_007 model below. -/
inductive ReplyMsg where
  | wellFormed (status : Nat) (body : String)
  | malformed
deriving DecidableEq, Repr

inductive RelayEvent where
  | reply (m : ReplyMsg)
  | timeoutFire
  | close
deriving DecidableEq, Repr

namespace Relay

/-- State of one PendingRequest of the mcp-api-handler.ts message endpoint:
the one-shot `hasResponded` flag, whether the timer is armed and uncleared,
whether the reply-channel subscription is active, the responses written to
the caller via `res.end`, and the reply messages actually delivered to the
subscription callback. -/
structure State where
  hasResponded : Bool
  timeoutActive : Bool
  subscribed : Bool
  responses : List (Nat × String)
  delivered : List ReplyMsg
deriving DecidableEq, Repr

/-- Models `sendResponse` (lines 579-586): guarded by `hasResponded`; on the
first call it sets the flag, clears the timeout and ends the response. -/
def sendResponse (st : State) (status : Nat) (body : String) : State :=
  if st.hasResponded then st
  else { st with hasResponded := true, timeoutActive := false,
                 responses := st.responses ++ [(status, body)] }

/-- Models the subscription callback (lines 591-602): parse the payload and
forward status/body, or send a generic 500 when parsing throws. -/
def replyCallback (st : State) (m : ReplyMsg) : State :=
  match m with
  | ReplyMsg.wellFormed status body => sendResponse st status body
  | ReplyMsg.malformed => sendResponse st 500 "Internal server error"

/-- Models the timeout callback body (lines 614-617): unsubscribe from the
reply channel, then send 408. -/
def timeoutHandler (st : State) : State :=
  sendResponse { st with subscribed := false } 408 "Request timed out"

/-- Models the `res.on("close", ...)` handler (lines 619-623): set the
one-shot flag, clear the timeout, unsubscribe; no response is written. -/
def closeHandler (st : State) : State :=
  { st with hasResponded := true, timeoutActive := false, subscribed := false }

/-- One asynchronous event hitting the pending request. A reply reaches the
callback only while the subscription is active; the timer fires only while
armed and uncleared (and firing disarms it). -/
def step (st : State) (e : RelayEvent) : State :=
  match e with
  | RelayEvent.reply m =>
    if st.subscribed then replyCallback { st with delivered := st.delivered ++ [m] } m
    else st
  | RelayEvent.timeoutFire =>
    if st.timeoutActive then timeoutHandler { st with timeoutActive := false }
    else st
  | RelayEvent.close => closeHandler st

def run (st : State) (es : List RelayEvent) : State :=
  es.foldl step st

/-- The PendingRequest state right after the setup completes: not yet
responded, timer armed, reply subscription active, nothing written. -/
def initState : State :=
  { hasResponded := false, timeoutActive := true, subscribed := true,
    responses := [], delivered := [] }

end Relay

/-- The setup actions the message-endpoint handler performs, in program
order (lines 589-623): subscribe to the reply channel, publish the
serialized request to the session channel, arm the timeout, register the
close handler. -/
inductive RelayAction where
  | subscribe (channel : String)
  | publish (channel : String)
  | armTimeout
  | registerCloseHandler
deriving DecidableEq, Repr

def messageSetupTrace (sessionId requestId : String) : List RelayAction :=
  [ RelayAction.subscribe (responsesChannel sessionId requestId),
    RelayAction.publish (requestsChannel sessionId),
    RelayAction.armTimeout,
    RelayAction.registerCloseHandler ]

/-- The immediately observable outcome of one message-endpoint invocation:
an immediate response (when validation fails), the setup actions performed,
and the pending-request state left behind. -/
structure MessageOutcome where
  response : Option (Nat × String)
  actions : List RelayAction
  pending : Option Relay.State
deriving DecidableEq, Repr

/-- Models the sseMessageEndpoint branch (lines 539-627): 404 when SSE is
disabled; `url.searchParams.get("sessionId") || ""` treats an absent or
empty parameter as missing and responds 400 before any broker interaction;
otherwise the setup trace runs and a pending request is left armed. -/
def messageEndpoint (disableSse : Bool) (sessionIdParam : Option String)
    (requestId : String) : MessageOutcome :=
  if disableSse then
    { response := some (404, "Not found"), actions := [], pending := none }
  else
    let sessionId := sessionIdParam.getD ""
    if sessionId = "" then
      { response := some (400, "No sessionId provided"), actions := [], pending := none }
    else
      { response := none,
        actions := messageSetupTrace sessionId requestId,
        pending := some Relay.initState }

/-! ## The SSE connection endpoint validation (mcp-api-handler.ts lines
342-374; src/unnamed/part_007 lines 416-448 is textually identical). -/

/-- List-level substring test used to model JS `String.prototype.includes`. -/
def containsSub (hay pat : List Char) : Bool :=
  match hay with
  | [] => pat.isEmpty
  | c :: t => pat.isPrefixOf (c :: t) || containsSub t pat

/-- Models `a.includes(sub)` on JS strings. -/
def strIncludes (s sub : String) : Bool :=
  containsSub s.toList sub.toList

/-- The three Accept values the source treats as event-stream compatible
(lines 361-366). -/
def acceptCompatible (a : String) : Bool :=
  strIncludes a "text/event-stream" || strIncludes a "*/*" || strIncludes a "text/*"

/-- Outcome of one connection-endpoint invocation: the immediate response
when the request is rejected, whether a session (transport + server) was
created, and whether the session request channel was subscribed. -/
structure ConnOutcome where
  response : Option (Nat × String)
  sessionCreated : Bool
  requestChannelSubscribed : Bool
deriving DecidableEq, Repr

/-- Models the sseEndpoint branch preconditions (lines 342-374): 404 when
SSE is disabled, 405 for non-GET, then the Accept check. The source guard
is `acceptHeader && !includes(...)`: an absent (or empty, hence falsy)
Accept header skips the 406 rejection. On success a session is created and
`requests:sessionId` is subscribed (lines 376-511). -/
def sseConnect (disableSse : Bool) (method : String) (accept : Option String) :
    ConnOutcome :=
  if disableSse then
    { response := some (404, "Not found"), sessionCreated := false,
      requestChannelSubscribed := false }
  else if method ≠ "GET" then
    { response := some (405, "Method Not Allowed"), sessionCreated := false,
      requestChannelSubscribed := false }
  else
    let acceptHeader := accept.getD ""
    if acceptHeader ≠ "" && !acceptCompatible acceptHeader then
      { response := some (406, "Not Acceptable"), sessionCreated := false,
        requestChannelSubscribed := false }
    else
      { response := none, sessionCreated := true,
        requestChannelSubscribed := true }

/-! ## The part_007 variant (src/unnamed/part_007).

Its message endpoint (lines 725-814) routes every termination path through
an idempotent `cleanup`, and its SSE branch (lines 474-542) guards a
comprehensive cleanup routine with an `isCleanedUp` flag.

The reply payload is modelled at field level here: `handleResponse` casts
the `JSON.parse` result with `as { status; body }` and forwards
`response.status` and `response.body` without any shape validation, so a
payload that is valid JSON but lacks those fields reaches `res.statusCode`
and `res.end` as `undefined`. -/

/-- A raw reply-channel payload as `JSON.parse` sees it: either text that
parses to the JSON value j, or text on which parsing throws. -/
inductive RawReply where
  | json (j : Json)
  | unparseable

/-- JS property access on a parsed JSON value (`response.status`,
`response.body`): the named field when the value is an object and the
field is present, else undefined, modelled as `none`. -/
def jsGet (j : Json) (key : String) : Option Json :=
  match j with
  | Json.obj fields => List.lookup key fields
  | _ => none

namespace Part7

/-- State of one PendingRequest of the part_007 message endpoint. Each
entry of `responses` records the pair of JS values handed to the caller's
response: the value assigned to `res.statusCode` and the value passed to
`res.end` (`none` is `undefined`). -/
structure State where
  hasResponded : Bool
  isCleanedUp : Bool
  timeoutActive : Bool
  subscribed : Bool
  responses : List (Option Json × Option Json)

/-- Models the pending-request `cleanup` (lines 731-745): guarded by
`isCleanedUp`; clears the timeout and unsubscribes the reply channel. -/
def cleanupPending (st : State) : State :=
  if st.isCleanedUp then st
  else { st with isCleanedUp := true, timeoutActive := false, subscribed := false }

/-- Models `sendResponse` (lines 748-755): guarded by `hasResponded`; on the
first call it sets the flag, ends the response with whatever status and
body values it was handed, then awaits `cleanup`. -/
def sendResponse (st : State) (status body : Option Json) : State :=
  if st.hasResponded then st
  else cleanupPending { st with hasResponded := true,
                                responses := st.responses ++ [(status, body)] }

/-- Models `handleResponse` (lines 758-769): on a payload that parses, the
extracted `response.status` and `response.body` fields (undefined when
absent — the cast performs no validation) are forwarded as-is; only when
`JSON.parse` throws does the catch send the generic 500. (The catch block
also surrounds the `sendResponse` call itself, but nothing in the source
text of `sendResponse` throws, so only the parse failure is modelled as
reaching it.) -/
def handleResponse (st : State) (m : RawReply) : State :=
  match m with
  | RawReply.json j => sendResponse st (jsGet j "status") (jsGet j "body")
  | RawReply.unparseable =>
    sendResponse st (some (Json.num 500)) (some (Json.str "Internal server error"))

inductive Event where
  | reply (m : RawReply)
  | timeoutFire
  | close

/-- Models the timeout callback (lines 787-789) and the close/error
handlers (lines 792-806); replies reach `handleResponse` only while the
subscription is active. -/
def step (st : State) (e : Event) : State :=
  match e with
  | Event.reply m =>
    if st.subscribed then handleResponse st m else st
  | Event.timeoutFire =>
    if st.timeoutActive then
      sendResponse { st with timeoutActive := false }
        (some (Json.num 408)) (some (Json.str "Request timed out"))
    else st
  | Event.close =>
    if st.hasResponded then st
    else cleanupPending { st with hasResponded := true }

def run (st : State) (es : List Event) : State :=
  es.foldl step st

def initState : State :=
  { hasResponded := false, isCleanedUp := false, timeoutActive := true,
    subscribed := true, responses := [] }

/-- State of one SSE session's cleanup bookkeeping in part_007 (lines
474-542): the one-shot `isCleanedUp` flag plus, for each side effect the
cleanup body performs, a counter of how many times it has been performed. -/
structure SessionState where
  isCleanedUp : Bool
  timeoutCleared : Nat
  intervalCleared : Nat
  abortListenerRemoved : Nat
  requestChannelUnsubscribed : Nat
  serverClosed : Nat
  transportClosed : Nat
  registryRemoved : Nat
  sessionEndedEmitted : Nat
  responseEnded : Nat
deriving DecidableEq, Repr

/-- Models the SSE `cleanup` routine (lines 483-542): `if (isCleanedUp)
return; isCleanedUp = true;` is executed synchronously before the first
await, then the body cancels both timers, removes the abort listener,
unsubscribes `requests:sessionId`, closes the server and the transport,
removes the session from the server registry, emits the session-ended
event and ends the response. -/
def cleanup (st : SessionState) : SessionState :=
  if st.isCleanedUp then st
  else
    { isCleanedUp := true
      timeoutCleared := st.timeoutCleared + 1
      intervalCleared := st.intervalCleared + 1
      abortListenerRemoved := st.abortListenerRemoved + 1
      requestChannelUnsubscribed := st.requestChannelUnsubscribed + 1
      serverClosed := st.serverClosed + 1
      transportClosed := st.transportClosed + 1
      registryRemoved := st.registryRemoved + 1
      sessionEndedEmitted := st.sessionEndedEmitted + 1
      responseEnded := st.responseEnded + 1 }

/-- The independent termination triggers wired to the cleanup routine:
`server.server.onclose` (line 555), the client abort signal and the
max-duration timer (both resolve `waitPromise`, whose awaiter calls cleanup,
lines 658-683), the response close and error events (lines 670-678), and
the setup catch block (lines 684-688). -/
inductive Trigger where
  | serverClose
  | clientAbort
  | maxDurationTimeout
  | responseClosed
  | responseError
  | setupError
deriving DecidableEq, Repr

/-- Every trigger funnels into the same cleanup routine (its reason string
is only logged, not recorded in session state). -/
def fireTrigger (st : SessionState) (_ : Trigger) : SessionState :=
  cleanup st

def initSession : SessionState :=
  { isCleanedUp := false, timeoutCleared := 0, intervalCleared := 0,
    abortListenerRemoved := 0, requestChannelUnsubscribed := 0,
    serverClosed := 0, transportClosed := 0, registryRemoved := 0,
    sessionEndedEmitted := 0, responseEnded := 0 }

/-- The session state after the first cleanup has run. -/
def cleanedSession : SessionState :=
  cleanup initSession

end Part7

namespace Relay

/-- Invariant of any reachable pending-request state: before the first
response nothing has been written, and never more than one response. -/
def InvLe (st : State) : Prop :=
  (st.hasResponded = false → st.responses = []) ∧ st.responses.length ≤ 1

/-- Invariant of pending-request states reachable without a close event:
before the first response nothing has been written, the timer is armed and
the subscription is active; after it, exactly one response stands. -/
def InvCF (st : State) : Prop :=
  (st.hasResponded = false →
    st.responses = [] ∧ st.timeoutActive = true ∧ st.subscribed = true)
  ∧ (st.hasResponded = true → st.responses.length = 1)

end Relay

namespace Part7

/-- Invariant of reachable part_007 pending-request states: while the reply
subscription is active, neither the one-shot response flag nor the cleanup
flag is set. -/
def Inv (st : State) : Prop :=
  st.subscribed = true → (st.hasResponded = false ∧ st.isCleanedUp = false)

end Part7

/-! ## Theorems -/

namespace Relay

theorem step_responded (st : State) (e : RelayEvent) (h : st.hasResponded = true) :
    (step st e).hasResponded = true ∧ (step st e).responses = st.responses := by
  cases e with
  | reply m =>
    simp only [step]
    split
    · cases m <;> simp [replyCallback, sendResponse, h]
    · exact ⟨h, rfl⟩
  | timeoutFire =>
    simp only [step]
    split
    · simp [timeoutHandler, sendResponse, h]
    · exact ⟨h, rfl⟩
  | close => exact ⟨rfl, rfl⟩

theorem run_responded (es : List RelayEvent) : ∀ st : State, st.hasResponded = true →
    (run st es).hasResponded = true ∧ (run st es).responses = st.responses := by
  induction es with
  | nil => exact fun st h => ⟨h, rfl⟩
  | cons e t ih =>
    intro st h
    have hs := step_responded st e h
    have ht := ih (step st e) hs.1
    exact ⟨ht.1, ht.2.trans hs.2⟩

theorem step_invLe (st : State) (e : RelayEvent) (h : InvLe st) : InvLe (step st e) := by
  obtain ⟨h0, h1⟩ := h
  by_cases hr : st.hasResponded = true
  · obtain ⟨hf, hresp⟩ := step_responded st e hr
    exact ⟨fun hx => absurd hf (by simp [hx]), by rw [hresp]; exact h1⟩
  · have hr' : st.hasResponded = false := by
      revert hr; cases st.hasResponded <;> simp
    have hre := h0 hr'
    cases e with
    | reply m =>
      simp only [step]
      split
      · cases m <;> simp [replyCallback, sendResponse, hr', hre, InvLe]
      · exact ⟨h0, h1⟩
    | timeoutFire =>
      simp only [step]
      split
      · simp [timeoutHandler, sendResponse, hr', hre, InvLe]
      · exact ⟨h0, h1⟩
    | close =>
      refine ⟨fun hx => by simp [step, closeHandler] at hx, ?_⟩
      simpa [step, closeHandler] using h1

theorem run_invLe (es : List RelayEvent) : ∀ st : State, InvLe st → InvLe (run st es) := by
  induction es with
  | nil => exact fun st h => h
  | cons e t ih => exact fun st h => ih (step st e) (step_invLe st e h)

theorem step_invCF (st : State) (e : RelayEvent) (hne : e ≠ RelayEvent.close)
    (h : InvCF st) : InvCF (step st e) := by
  obtain ⟨h0, h1⟩ := h
  by_cases hr : st.hasResponded = true
  · obtain ⟨hf, hresp⟩ := step_responded st e hr
    exact ⟨fun hx => absurd hf (by simp [hx]), fun _ => by rw [hresp]; exact h1 hr⟩
  · have hr' : st.hasResponded = false := by
      revert hr; cases st.hasResponded <;> simp
    obtain ⟨hresp, hta, hsub⟩ := h0 hr'
    cases e with
    | reply m =>
      cases m <;> simp [step, hsub, replyCallback, sendResponse, hr', hresp, InvCF]
    | timeoutFire =>
      simp [step, hta, timeoutHandler, sendResponse, hr', hresp, InvCF]
    | close => exact absurd rfl hne

/-- Any event at all that reaches a close-free pending request (a delivered
reply or the armed timer firing) leaves the one-shot flag set. -/
theorem step_nonclose_responded (st : State) (e : RelayEvent)
    (hne : e ≠ RelayEvent.close) (h : InvCF st) :
    (step st e).hasResponded = true := by
  by_cases hr : st.hasResponded = true
  · exact (step_responded st e hr).1
  · have hr' : st.hasResponded = false := by
      revert hr; cases st.hasResponded <;> simp
    obtain ⟨_, hta, hsub⟩ := h.1 hr'
    cases e with
    | reply m => cases m <;> simp [step, hsub, replyCallback, sendResponse, hr']
    | timeoutFire => simp [step, hta, timeoutHandler, sendResponse, hr']
    | close => exact absurd rfl hne

theorem run_exactly_one (es : List RelayEvent) : ∀ st : State,
    RelayEvent.close ∉ es → es ≠ [] → InvCF st →
    (run st es).responses.length = 1 := by
  induction es with
  | nil => intro st _ hne _; exact absurd rfl hne
  | cons e t ih =>
    intro st hnc _ hinv
    have hne : e ≠ RelayEvent.close := by
      intro h; exact hnc (by simp [h])
    have hnct : RelayEvent.close ∉ t := fun h => hnc (List.mem_cons_of_mem _ h)
    have hstep := step_nonclose_responded st e hne hinv
    have hinv' := step_invCF st e hne hinv
    have hrun := run_responded t (step st e) hstep
    have heq : run st (e :: t) = run (step st e) t := rfl
    rw [heq, hrun.2]
    exact hinv'.2 hstep

theorem step_subscribed (st : State) (e : RelayEvent)
    (h1 : e ≠ RelayEvent.timeoutFire) (h2 : e ≠ RelayEvent.close)
    (hs : st.subscribed = true) : (step st e).subscribed = true := by
  cases e with
  | reply m =>
    cases m with
    | wellFormed status body =>
      simp only [step, hs, if_true, replyCallback, sendResponse]
      split <;> simp [hs]
    | malformed =>
      simp only [step, hs, if_true, replyCallback, sendResponse]
      split <;> simp [hs]
  | timeoutFire => exact absurd rfl h1
  | close => exact absurd rfl h2

theorem run_subscribed (es : List RelayEvent) : ∀ st : State,
    RelayEvent.timeoutFire ∉ es → RelayEvent.close ∉ es → st.subscribed = true →
    (run st es).subscribed = true := by
  induction es with
  | nil => exact fun st _ _ h => h
  | cons e t ih =>
    intro st ht hc hs
    have h1 : e ≠ RelayEvent.timeoutFire := by intro h; exact ht (by simp [h])
    have h2 : e ≠ RelayEvent.close := by intro h; exact hc (by simp [h])
    exact ih (step st e) (fun h => ht (List.mem_cons_of_mem _ h))
      (fun h => hc (List.mem_cons_of_mem _ h)) (step_subscribed st e h1 h2 hs)

theorem step_reply_delivered (st : State) (m : ReplyMsg) (hs : st.subscribed = true) :
    (step st (RelayEvent.reply m)).delivered = st.delivered ++ [m] := by
  cases m with
  | wellFormed status body =>
    simp only [step, hs, if_true, replyCallback, sendResponse]
    split <;> simp
  | malformed =>
    simp only [step, hs, if_true, replyCallback, sendResponse]
    split <;> simp

end Relay

namespace Part7

theorem step_inv (st : State) (e : Event) (h : Inv st) : Inv (step st e) := by
  by_cases hs : st.subscribed = true
  · obtain ⟨hr, hc⟩ := h hs
    cases e with
    | reply m =>
      cases m <;>
        simp [step, hs, handleResponse, sendResponse, cleanupPending, hr, hc, Inv]
    | timeoutFire =>
      simp only [step]
      split
      · simp [sendResponse, cleanupPending, hr, hc, Inv]
      · exact h
    | close =>
      simp [step, hr, cleanupPending, hc, Inv]
  · have hs' : st.subscribed = false := by
      revert hs; cases st.subscribed <;> simp
    have hstep : (step st e).subscribed = false := by
      cases e with
      | reply m => simp [step, hs']
      | timeoutFire =>
        simp only [step]
        split
        · simp only [sendResponse, cleanupPending]
          split
          · simp [hs']
          · split <;> simp [hs']
        · exact hs'
      | close =>
        simp only [step]
        split
        · exact hs'
        · simp only [cleanupPending]
          split <;> simp [hs']
    intro habs
    rw [hstep] at habs
    exact absurd habs (by simp)

theorem run_inv (es : List Event) : ∀ st : State, Inv st → Inv (run st es) := by
  induction es with
  | nil => exact fun st h => h
  | cons e t ih => exact fun st h => ih (step st e) (step_inv st e h)

theorem fireTrigger_cleaned (t : Trigger) :
    fireTrigger cleanedSession t = cleanedSession := rfl

theorem foldl_fireTrigger_cleaned (ts : List Trigger) :
    ts.foldl fireTrigger cleanedSession = cleanedSession := by
  induction ts with
  | nil => rfl
  | cons t rest ih => simpa [List.foldl, fireTrigger_cleaned] using ih

end Part7

/-! ## Claim theorems -/

/-- Claim C1, counterexample to the claim as stated: when a broker reply
and a caller disconnect occur in the same scheduling tick and the close
handler runs first, zero terminal responses are written (the close handler
sets the one-shot flag and unsubscribes without writing), so "exactly one
terminal HTTP response is written" fails on this event order. -/
theorem c1_counterexample :
    (Relay.run Relay.initState
      [RelayEvent.close, RelayEvent.reply (ReplyMsg.wellFormed 200 "ok")]).responses = []
  ∧ ¬ (Relay.run Relay.initState
      [RelayEvent.close, RelayEvent.reply (ReplyMsg.wellFormed 200 "ok")]).responses.length = 1 := by
  exact ⟨rfl, by decide⟩

/-- Claim C1 (amended): at most one terminal HTTP response is ever written
per PendingRequest; in every execution in which the caller does not
disconnect, any event that occurs at all (a delivered broker reply, a
malformed reply, or the timer firing — whichever wins the race) leaves
exactly one response written; and once the one-shot responded flag is set,
every further event leaves the response list and the flag unchanged. -/
theorem c1_at_most_one_response :
    ∀ es : List RelayEvent,
      (Relay.run Relay.initState es).responses.length ≤ 1
    ∧ (RelayEvent.close ∉ es → es ≠ [] →
        (Relay.run Relay.initState es).responses.length = 1)
    ∧ (∀ st : Relay.State, ∀ e : RelayEvent, st.hasResponded = true →
        (Relay.step st e).responses = st.responses
        ∧ (Relay.step st e).hasResponded = true) := by
  intro es
  refine ⟨?_, ?_, ?_⟩
  · have h := Relay.run_invLe es Relay.initState ⟨fun _ => rfl, by simp [Relay.initState]⟩
    exact h.2
  · intro hnc hne
    exact Relay.run_exactly_one es Relay.initState hnc hne
      ⟨fun _ => ⟨rfl, rfl, rfl⟩, fun h => by simp [Relay.initState] at h⟩
  · intro st e h
    have hs := Relay.step_responded st e h
    exact ⟨hs.2, hs.1⟩

/-- Claim C1 witness: a concrete run in which only the timeout fires writes
exactly one response. -/
theorem c1_witness :
    (Relay.run Relay.initState [RelayEvent.timeoutFire]).responses.length = 1 :=
  (c1_at_most_one_response [RelayEvent.timeoutFire]).2.1 (by decide) (by decide)

/-- Claim C2: the part_007 SSE cleanup routine performs each of its side
effects (cancel both timers, remove the abort listener, unsubscribe the
session request channel, close server and transport, remove the session
from the registry, emit the session-ended event, end the response) exactly
once no matter how many termination triggers fire and in which order, and
every cleanup invocation on an already-cleaned state performs no action. -/
theorem c2_cleanup_exactly_once :
    (∀ ts : List Part7.Trigger, ts ≠ [] →
      ts.foldl Part7.fireTrigger Part7.initSession = Part7.cleanedSession)
  ∧ (∀ st : Part7.SessionState, st.isCleanedUp = true → Part7.cleanup st = st)
  ∧ Part7.cleanedSession.isCleanedUp = true
  ∧ Part7.cleanedSession.timeoutCleared = 1
  ∧ Part7.cleanedSession.intervalCleared = 1
  ∧ Part7.cleanedSession.abortListenerRemoved = 1
  ∧ Part7.cleanedSession.requestChannelUnsubscribed = 1
  ∧ Part7.cleanedSession.serverClosed = 1
  ∧ Part7.cleanedSession.transportClosed = 1
  ∧ Part7.cleanedSession.registryRemoved = 1
  ∧ Part7.cleanedSession.sessionEndedEmitted = 1
  ∧ Part7.cleanedSession.responseEnded = 1 := by
  refine ⟨?_, ?_, rfl, rfl, rfl, rfl, rfl, rfl, rfl, rfl, rfl, rfl⟩
  · intro ts hne
    cases ts with
    | nil => exact absurd rfl hne
    | cons t rest =>
      have h1 : Part7.fireTrigger Part7.initSession t = Part7.cleanedSession := rfl
      calc (t :: rest).foldl Part7.fireTrigger Part7.initSession
          = rest.foldl Part7.fireTrigger Part7.cleanedSession := by
            rw [List.foldl_cons, h1]
        _ = Part7.cleanedSession := Part7.foldl_fireTrigger_cleaned rest
  · intro st h
    simp [Part7.cleanup, h]

/-- Claim C2 witness: three triggers firing in sequence (abort, timeout,
server close) still produce exactly one cleanup. -/
theorem c2_witness :
    ([Part7.Trigger.clientAbort, Part7.Trigger.maxDurationTimeout,
      Part7.Trigger.serverClose] : List Part7.Trigger) ≠ []
  ∧ ([Part7.Trigger.clientAbort, Part7.Trigger.maxDurationTimeout,
      Part7.Trigger.serverClose] : List Part7.Trigger).foldl
        Part7.fireTrigger Part7.initSession = Part7.cleanedSession :=
  ⟨by decide, c2_cleanup_exactly_once.1 _ (by decide)⟩

/-- Claim C3, counterexample to the claim as stated: a reply published
after the timeout has fired (which unsubscribes the reply channel) is not
delivered to the subscription — it is lost — so "a reply published at any
point after the publish completes is delivered and never lost" fails. -/
theorem c3_counterexample :
    (Relay.run Relay.initState
      [RelayEvent.timeoutFire, RelayEvent.reply (ReplyMsg.wellFormed 200 "ok")]).delivered = []
  ∧ ¬ (Relay.run Relay.initState
      [RelayEvent.timeoutFire, RelayEvent.reply (ReplyMsg.wellFormed 200 "ok")]).delivered
        = [ReplyMsg.wellFormed 200 "ok"] := by
  exact ⟨rfl, by decide⟩

/-- Claim C3 (amended): the message-endpoint handler subscribes to the
per-request reply channel strictly before it publishes the serialized
request to the session channel, so the subscription is active when the
publish completes; consequently a reply published at any point after the
publish completes and before the subscription is released (by the timeout
firing or the caller disconnecting) is delivered to that subscription and
never lost — in particular a reply published immediately after the publish
completes. -/
theorem c3_subscribe_before_publish :
    (∀ sessionId requestId : String,
      (messageSetupTrace sessionId requestId).findIdx
          (fun a => match a with | RelayAction.subscribe _ => true | _ => false)
        < (messageSetupTrace sessionId requestId).findIdx
          (fun a => match a with | RelayAction.publish _ => true | _ => false))
  ∧ Relay.initState.subscribed = true
  ∧ (∀ (es : List RelayEvent) (m : ReplyMsg),
      RelayEvent.timeoutFire ∉ es → RelayEvent.close ∉ es →
      (Relay.run Relay.initState (es ++ [RelayEvent.reply m])).delivered
        = (Relay.run Relay.initState es).delivered ++ [m]) := by
  refine ⟨?_, rfl, ?_⟩
  · intro sessionId requestId
    simp [messageSetupTrace, List.findIdx, List.findIdx.go]
  · intro es m ht hc
    have hsub := Relay.run_subscribed es Relay.initState ht hc rfl
    have heq : Relay.run Relay.initState (es ++ [RelayEvent.reply m])
        = Relay.step (Relay.run Relay.initState es) (RelayEvent.reply m) := by
      simp [Relay.run, List.foldl_append]
    rw [heq]
    exact Relay.step_reply_delivered _ m hsub

/-- Claim C3 witness: a reply arriving immediately after the publish (no
earlier events) is delivered. -/
theorem c3_witness :
    (Relay.run Relay.initState ([] ++ [RelayEvent.reply (ReplyMsg.wellFormed 200 "ok")])).delivered
      = (Relay.run Relay.initState []).delivered ++ [ReplyMsg.wellFormed 200 "ok"] :=
  c3_subscribe_before_publish.2.2 [] (ReplyMsg.wellFormed 200 "ok") (by decide) (by decide)

/-- Claim C4: when no reply has been delivered before the timer fires, the
timeout callback unsubscribes the reply channel and responds 408 "Request
timed out"; the one-shot flag is then set, and no sequence of later events
(a late reply, a second timer tick, a close) ever changes the written
response. -/
theorem c4_timeout_responds_408 :
    ∀ es : List RelayEvent,
      (Relay.step Relay.initState RelayEvent.timeoutFire).responses
        = [(408, "Request timed out")]
    ∧ (Relay.step Relay.initState RelayEvent.timeoutFire).subscribed = false
    ∧ (Relay.step Relay.initState RelayEvent.timeoutFire).hasResponded = true
    ∧ (Relay.run (Relay.step Relay.initState RelayEvent.timeoutFire) es).responses
        = [(408, "Request timed out")] := by
  intro es
  refine ⟨rfl, rfl, rfl, ?_⟩
  have h := Relay.run_responded es (Relay.step Relay.initState RelayEvent.timeoutFire) rfl
  exact h.2

/-- Claim C5: a message-endpoint request whose URL carries no sessionId
query parameter — or an empty-string value, which the source's
`url.searchParams.get("sessionId") || ""` treats as absent — is answered
400 "No sessionId provided" with no channel subscribed and nothing
published. -/
theorem c5_missing_session_id :
    ∀ (sessionIdParam : Option String) (requestId : String),
      sessionIdParam = none ∨ sessionIdParam = some "" →
      messageEndpoint false sessionIdParam requestId =
        { response := some (400, "No sessionId provided"), actions := [], pending := none } := by
  rintro p requestId (rfl | rfl) <;> rfl

/-- Claim C5 witness: the absent-parameter case at a concrete request id. -/
theorem c5_witness :
    ((none : Option String) = none ∨ (none : Option String) = some "")
  ∧ messageEndpoint false none "req-1" =
      { response := some (400, "No sessionId provided"), actions := [], pending := none } :=
  ⟨Or.inl rfl, c5_missing_session_id none "req-1" (Or.inl rfl)⟩

/-- Claim C6, counterexample to the claim as stated: a GET request with no
Accept header at all — whose (absent) header certainly does not include an
event-stream-compatible value — is not rejected with 406: the source guard
`acceptHeader && !...includes(...)` skips the check for a falsy header, and
the connection proceeds to create a session. -/
theorem c6_counterexample :
    (sseConnect false "GET" none).sessionCreated = true
  ∧ (sseConnect false "GET" none).response = none
  ∧ ¬ (sseConnect false "GET" none).response = some (406, "Not Acceptable") := by
  exact ⟨rfl, rfl, by decide⟩

/-- Claim C6 (amended): on the enabled connection endpoint, a non-GET
request is rejected 405 and a request whose Accept header is present and
non-empty and includes none of "text/event-stream", "*/*", "text/*" is
rejected 406; in both rejection cases no session is created and no channel
is subscribed. An absent (or empty) Accept header is not rejected. -/
theorem c6_connection_validation :
    (∀ (method : String) (accept : Option String), method ≠ "GET" →
      sseConnect false method accept =
        { response := some (405, "Method Not Allowed"), sessionCreated := false,
          requestChannelSubscribed := false })
  ∧ (∀ a : String, a ≠ "" → acceptCompatible a = false →
      sseConnect false "GET" (some a) =
        { response := some (406, "Not Acceptable"), sessionCreated := false,
          requestChannelSubscribed := false }) := by
  constructor
  · intro method accept h
    simp [sseConnect, h]
  · intro a h1 h2
    simp [sseConnect, h1, h2]

/-- Claim C6 witness: a POST connection attempt is rejected 405, and a GET
with Accept "application/json" is rejected 406, neither creating a session. -/
theorem c6_witness :
    sseConnect false "POST" (some "text/event-stream") =
      { response := some (405, "Method Not Allowed"), sessionCreated := false,
        requestChannelSubscribed := false }
  ∧ sseConnect false "GET" (some "application/json") =
      { response := some (406, "Not Acceptable"), sessionCreated := false,
        requestChannelSubscribed := false } :=
  ⟨c6_connection_validation.1 "POST" (some "text/event-stream") (by decide),
   c6_connection_validation.2 "application/json" (by decide) (by decide)⟩

/-- Claim C7, counterexample to the claim as stated: the payload
`{"foo":1}` is valid JSON but cannot be parsed as an object with status
and body fields; `JSON.parse` does not throw on it, so the catch never
fires and `handleResponse` forwards `response.status` and `response.body`
— both undefined — to the caller's response instead of the generic 500
message. -/
theorem c7_counterexample :
    (Part7.step Part7.initState
      (Part7.Event.reply (RawReply.json (Json.obj [("foo", Json.num 1)])))).responses
      = [(none, none)]
  ∧ ¬ (Part7.step Part7.initState
      (Part7.Event.reply (RawReply.json (Json.obj [("foo", Json.num 1)])))).responses
      = [(some (Json.num 500), some (Json.str "Internal server error"))] := by
  have h : (Part7.step Part7.initState
      (Part7.Event.reply (RawReply.json (Json.obj [("foo", Json.num 1)])))).responses
      = [(none, none)] := rfl
  refine ⟨h, ?_⟩
  rw [h]
  simp

/-- Claim C7 (amended): in the part_007 message endpoint, a reply delivered
to the still-active subscription whose payload is not valid JSON (parsing
throws) is answered with the generic 500 "Internal server error" and the
subscription is released by the cleanup that `sendResponse` runs; a
payload that parses to any JSON value is not shape-checked — its status
and body fields (undefined when absent) are forwarded to the caller's
response as-is. -/
theorem c7_reply_payload_handling :
    ∀ es : List Part7.Event,
      (Part7.run Part7.initState es).subscribed = true →
      ((Part7.step (Part7.run Part7.initState es)
          (Part7.Event.reply RawReply.unparseable)).responses
        = (Part7.run Part7.initState es).responses
          ++ [(some (Json.num 500), some (Json.str "Internal server error"))]
      ∧ (Part7.step (Part7.run Part7.initState es)
          (Part7.Event.reply RawReply.unparseable)).subscribed = false)
    ∧ (∀ j : Json,
        (Part7.step (Part7.run Part7.initState es)
            (Part7.Event.reply (RawReply.json j))).responses
          = (Part7.run Part7.initState es).responses
            ++ [(jsGet j "status", jsGet j "body")]) := by
  intro es hs
  have hinv := Part7.run_inv es Part7.initState (fun _ => ⟨rfl, rfl⟩)
  obtain ⟨hr, hc⟩ := hinv hs
  refine ⟨⟨?_, ?_⟩, ?_⟩
  · simp [Part7.step, hs, Part7.handleResponse, Part7.sendResponse,
      Part7.cleanupPending, hr, hc]
  · simp [Part7.step, hs, Part7.handleResponse, Part7.sendResponse,
      Part7.cleanupPending, hr, hc]
  · intro j
    simp [Part7.step, hs, Part7.handleResponse, Part7.sendResponse,
      Part7.cleanupPending, hr, hc]

/-- Claim C7 witness: an unparseable reply arriving as the first event gets
the generic 500 and releases the subscription. -/
theorem c7_witness :
    (Part7.step (Part7.run Part7.initState [])
        (Part7.Event.reply RawReply.unparseable)).responses
      = (Part7.run Part7.initState []).responses
        ++ [(some (Json.num 500), some (Json.str "Internal server error"))]
  ∧ (Part7.step (Part7.run Part7.initState [])
      (Part7.Event.reply RawReply.unparseable)).subscribed = false :=
  (c7_reply_payload_handling [] rfl).1

/-- Claim C8: the synthetic request built by createFakeIncomingMessage
exposes exactly the given method, url, and headers; its stream is always
ended and yields exactly the body — a non-empty string or a Buffer is
pushed unmodified, an empty-string body pushes nothing (the stream yields
the empty body), any other non-null body is pushed as its JSON
serialization, and an absent body yields an empty ended stream; the
attached auth context is the explicit auth option when present, else the
ambient one; and the synthetic response capturer records the status code
passed to writeHead and the body passed to end into its in-memory state. -/
theorem c8_fake_message_fidelity :
    ∀ (method url : String) (headers : List (String × String))
      (body : Option Body) (auth ambientAuth : Option AuthInfo)
      (fm : FakeIncomingMessage),
      fm = createFakeIncomingMessage
        { method := some method, url := some url, headers := some headers,
          body := body, auth := auth } ambientAuth →
      fm.method = method ∧ fm.url = url ∧ fm.headers = headers ∧ fm.ended = true
    ∧ (∀ s : String, s ≠ "" → body = some (Body.bstr s) → fm.chunks = [StreamChunk.str s])
    ∧ (body = some (Body.bstr "") → fm.chunks = [])
    ∧ (∀ bytes : List Nat, body = some (Body.bbuf bytes) → fm.chunks = [StreamChunk.buf bytes])
    ∧ (∀ fields : List (String × Json), body = some (Body.bobj fields) →
        fm.chunks = [StreamChunk.str (Json.stringify (Json.obj fields))])
    ∧ (body = none → fm.chunks = [])
    ∧ (∀ a : AuthInfo, auth = some a → fm.auth = some a)
    ∧ (auth = none → fm.auth = ambientAuth)
    ∧ (∀ (statusCode : Nat) (b : String),
        captureEnd (captureWriteHead captureInit statusCode) b
          = { status := statusCode, body := b }) := by
  intro method url headers body auth ambientAuth fm hfm
  subst hfm
  refine ⟨rfl, rfl, rfl, rfl, ?_, ?_, ?_, ?_, ?_, ?_, ?_, ?_⟩
  · rintro s hs rfl
    simp [createFakeIncomingMessage, Body.truthy, Body.chunk, hs]
  · rintro rfl; rfl
  · rintro bytes rfl; rfl
  · rintro fields rfl; rfl
  · rintro rfl; rfl
  · rintro a rfl; rfl
  · rintro rfl; rfl
  · intro statusCode b; rfl

/-- Claim C8 witness: a concrete synthetic request with a string body and
an ambient auth context. -/
theorem c8_witness :
    (createFakeIncomingMessage
      { method := some "POST", url := some "/message",
        headers := some [("content-type", "application/json")],
        body := some (Body.bstr "hi"), auth := none }
      (some { token := "tok", clientId := "cli", scopes := ["read"] })).chunks
      = [StreamChunk.str "hi"]
  ∧ (createFakeIncomingMessage
      { method := some "POST", url := some "/message",
        headers := some [("content-type", "application/json")],
        body := some (Body.bstr "hi"), auth := none }
      (some { token := "tok", clientId := "cli", scopes := ["read"] })).auth
      = some { token := "tok", clientId := "cli", scopes := ["read"] } := by
  have h := c8_fake_message_fidelity "POST" "/message"
    [("content-type", "application/json")] (some (Body.bstr "hi")) none
    (some { token := "tok", clientId := "cli", scopes := ["read"] }) _ rfl
  exact ⟨h.2.2.2.2.1 "hi" (by decide) rfl, h.2.2.2.2.2.2.2.2.2.2.1 rfl⟩

/-- Claim C9: lazy-init-once semantics — once both Redis clients exist the
call returns the same pair with the process state untouched (no creation,
no reconnection); from a fresh state with a non-empty url, exactly one
subscriber and one publisher are created and connected; and the stateless
protocol-engine instance is created at most once and reused thereafter. -/
theorem c9_lazy_singletons :
    (∀ (st : ProcState) (redisUrl : Option String) (r p : Nat),
        st.redis = some r → st.redisPublisher = some p →
        initializeRedis st redisUrl = Except.ok (st, r, p))
  ∧ (∀ (st : ProcState) (redisUrl : String),
        st.redis = none → st.redisPublisher = none → redisUrl ≠ "" →
        initializeRedis st (some redisUrl) = Except.ok
          ({ redis := some st.nextClientId,
             redisPublisher := some (st.nextClientId + 1),
             nextClientId := st.nextClientId + 2,
             connected := st.connected ++ [st.nextClientId, st.nextClientId + 1] },
           st.nextClientId, st.nextClientId + 1))
  ∧ (∀ nextId : Nat, ensureStatelessServer none nextId = (nextId, some nextId, nextId + 1))
  ∧ (∀ s nextId : Nat, ensureStatelessServer (some s) nextId = (s, some s, nextId)) := by
  refine ⟨?_, ?_, fun _ => rfl, fun _ _ => rfl⟩
  · intro st redisUrl r p hr hp
    simp [initializeRedis, hr, hp]
  · intro st redisUrl hr hp hu
    simp [initializeRedis, hr, hp, hu]

/-- Claim C9 witness: from a fresh process state, one call creates and
connects clients 0 and 1; a second call returns the same pair and leaves
the state untouched. -/
theorem c9_witness :
    initializeRedis { redis := none, redisPublisher := none, nextClientId := 0, connected := [] }
        (some "redis://localhost")
      = Except.ok ({ redis := some 0, redisPublisher := some 1, nextClientId := 2,
                     connected := [0, 1] }, 0, 1)
  ∧ initializeRedis { redis := some 0, redisPublisher := some 1, nextClientId := 2,
                      connected := [0, 1] } (some "redis://localhost")
      = Except.ok ({ redis := some 0, redisPublisher := some 1, nextClientId := 2,
                     connected := [0, 1] }, 0, 1) := by
  constructor
  · have h := c9_lazy_singletons.2.1
      { redis := none, redisPublisher := none, nextClientId := 0, connected := [] }
      "redis://localhost" rfl rfl (by decide)
    simpa using h
  · exact c9_lazy_singletons.1 _ (some "redis://localhost") 0 1 rfl rfl

/-- Claim C10: calculateEndpoints is pure, with basePath precedence — when
basePath is present (even empty) the result is basePath with at most one
trailing slash removed concatenated with "/mcp", "/sse", "/message", and
any explicitly supplied endpoints are ignored; when basePath is absent
(null or undefined) the explicit endpoints are returned, defaulting to
"/mcp", "/sse", "/message" when omitted. -/
theorem c10_calculate_endpoints :
    (∀ (c : EndpointConfig) (bp : String), c.basePath = some bp →
      calculateEndpoints c =
        { streamableHttpEndpoint := stripTrailingSlash bp ++ "/mcp",
          sseEndpoint := stripTrailingSlash bp ++ "/sse",
          sseMessageEndpoint := stripTrailingSlash bp ++ "/message" })
  ∧ (∀ c : EndpointConfig, c.basePath = none →
      calculateEndpoints c =
        { streamableHttpEndpoint := c.streamableHttpEndpoint.getD "/mcp",
          sseEndpoint := c.sseEndpoint.getD "/sse",
          sseMessageEndpoint := c.sseMessageEndpoint.getD "/message" }) := by
  constructor
  · intro c bp h
    simp [calculateEndpoints, h, deriveEndpointsFromBasePath]
  · intro c h
    simp [calculateEndpoints, h]

/-- Claim C10 witness: basePath "/api/" overrides all explicit endpoints
(and loses its one trailing slash); with basePath absent the explicit
sseEndpoint survives and the others default. -/
theorem c10_witness :
    calculateEndpoints
      { basePath := some "/api/", streamableHttpEndpoint := some "/x",
        sseEndpoint := some "/y", sseMessageEndpoint := some "/z" }
      = { streamableHttpEndpoint := "/api/mcp", sseEndpoint := "/api/sse",
          sseMessageEndpoint := "/api/message" }
  ∧ calculateEndpoints
      { basePath := none, streamableHttpEndpoint := none,
        sseEndpoint := some "/custom-sse", sseMessageEndpoint := none }
      = { streamableHttpEndpoint := "/mcp", sseEndpoint := "/custom-sse",
          sseMessageEndpoint := "/message" } := by
  constructor
  · exact (c10_calculate_endpoints.1 _ "/api/" rfl).trans (by decide)
  · exact (c10_calculate_endpoints.2 _ rfl).trans (by decide)

end McpHandler
